import Mathlib

/-!
Shallow embedding of `src/python/pants/option/global_options.py`: the
behavior enumerations, the `ExecutionOptions` projection with its canonical
default instance, the registration data of the speculation-strategy option,
and the cross-option validator `GlobalOptions.validate_instance`.

Python conventions carried over: an option registered without `type` holds a
string defaulting to `None`, embedded as `Option String`; Python truthiness
of such a value is false exactly on `None` and the empty string.  A `list`
option is a `List String` (falsy iff empty), a `dict` option a list of
pairs.  `multiprocessing.cpu_count()` is host-dependent and is threaded
through as an explicit `cpu_count` parameter.  The float-typed speculation
delay only ever holds the integer literal `1` and is copied, never computed
with, so an exact integer carrier is faithful.  A Python `raise` is an
`Except.error`.
-/

/-- Error for constructing an enum member from a string outside the variant
set (Python raises on `Enum("bogus")`); carries the offending string and the
legal set, as the user-facing message does. -/
structure InvalidEnumValue where
  given : String
  legal : List String
deriving DecidableEq, Repr

/-- `pants.option.errors.OptionsError`, carrying its message. -/
structure OptionsError where
  message : String
deriving DecidableEq, Repr

/-- `class GlobMatchErrorBehavior(Enum)`: variants `ignore`, `warn`, `error`. -/
inductive GlobMatchErrorBehavior where
  | ignore
  | warn
  | error
deriving DecidableEq, Repr, Fintype

/-- The `.value` string of each `GlobMatchErrorBehavior` member. -/
def GlobMatchErrorBehavior.value : GlobMatchErrorBehavior → String
  | .ignore => "ignore"
  | .warn => "warn"
  | .error => "error"

/-- The member list of `GlobMatchErrorBehavior`, in source order. -/
def GlobMatchErrorBehavior.members : List GlobMatchErrorBehavior :=
  [.ignore, .warn, .error]

/-- `GlobMatchErrorBehavior(s)`: Python `Enum` lookup of a member by its
value string; raises for a string outside the variant set. -/
def GlobMatchErrorBehavior.ofString (s : String) :
    Except InvalidEnumValue GlobMatchErrorBehavior :=
  if s = "ignore" then .ok .ignore
  else if s = "warn" then .ok .warn
  else if s = "error" then .ok .error
  else .error ⟨s, ["ignore", "warn", "error"]⟩

/-- `class FilesNotFoundBehavior(Enum)`: variants `warn`, `error`. -/
inductive FilesNotFoundBehavior where
  | warn
  | error
deriving DecidableEq, Repr, Fintype

/-- The `.value` string of each `FilesNotFoundBehavior` member. -/
def FilesNotFoundBehavior.value : FilesNotFoundBehavior → String
  | .warn => "warn"
  | .error => "error"

/-- The member list of `FilesNotFoundBehavior`, in source order. -/
def FilesNotFoundBehavior.members : List FilesNotFoundBehavior :=
  [.warn, .error]

/-- `FilesNotFoundBehavior(s)`: member lookup by value string. -/
def FilesNotFoundBehavior.ofString (s : String) :
    Except InvalidEnumValue FilesNotFoundBehavior :=
  if s = "warn" then .ok .warn
  else if s = "error" then .ok .error
  else .error ⟨s, ["warn", "error"]⟩

/-- `FilesNotFoundBehavior.to_glob_match_error_behavior`: the source builds
`GlobMatchErrorBehavior(self.value)`. -/
def FilesNotFoundBehavior.to_glob_match_error_behavior
    (b : FilesNotFoundBehavior) : Except InvalidEnumValue GlobMatchErrorBehavior :=
  GlobMatchErrorBehavior.ofString b.value

/-- `class OwnersNotFoundBehavior(Enum)`: variants `ignore`, `warn`, `error`. -/
inductive OwnersNotFoundBehavior where
  | ignore
  | warn
  | error
deriving DecidableEq, Repr, Fintype

/-- The `.value` string of each `OwnersNotFoundBehavior` member. -/
def OwnersNotFoundBehavior.value : OwnersNotFoundBehavior → String
  | .ignore => "ignore"
  | .warn => "warn"
  | .error => "error"

/-- The member list of `OwnersNotFoundBehavior`, in source order. -/
def OwnersNotFoundBehavior.members : List OwnersNotFoundBehavior :=
  [.ignore, .warn, .error]

/-- `OwnersNotFoundBehavior(s)`: member lookup by value string. -/
def OwnersNotFoundBehavior.ofString (s : String) :
    Except InvalidEnumValue OwnersNotFoundBehavior :=
  if s = "ignore" then .ok .ignore
  else if s = "warn" then .ok .warn
  else if s = "error" then .ok .error
  else .error ⟨s, ["ignore", "warn", "error"]⟩

/-- `OwnersNotFoundBehavior.to_glob_match_error_behavior`: the source builds
`GlobMatchErrorBehavior(self.value)`. -/
def OwnersNotFoundBehavior.to_glob_match_error_behavior
    (b : OwnersNotFoundBehavior) : Except InvalidEnumValue GlobMatchErrorBehavior :=
  GlobMatchErrorBehavior.ofString b.value

/-- The attributes of `bootstrap_options` read by
`ExecutionOptions.from_bootstrap_options` and by
`GlobalOptions.validate_instance` (all are registered bootstrap options,
visible afterwards as ordinary global options). -/
structure BootstrapOptionValues where
  remote_execution : Bool
  remote_store_server : List String
  remote_store_thread_count : Int
  remote_execution_server : Option String
  remote_store_chunk_bytes : Int
  remote_store_chunk_upload_timeout_seconds : Int
  remote_store_rpc_retries : Int
  remote_store_connection_limit : Int
  process_execution_local_parallelism : Nat
  process_execution_remote_parallelism : Int
  process_execution_cleanup_local_dirs : Bool
  process_execution_speculation_delay : Int
  process_execution_speculation_strategy : String
  process_execution_use_local_cache : Bool
  remote_execution_process_cache_namespace : Option String
  remote_instance_name : Option String
  remote_ca_certs_path : Option String
  remote_oauth_bearer_token_path : Option String
  remote_execution_extra_platform_properties : List String
  remote_execution_headers : List (String × String)
  remote_execution_overall_deadline_secs : Int
  process_execution_local_enable_nailgun : Bool
deriving DecidableEq, Repr

/-- `@dataclass(frozen=True) class ExecutionOptions`: immutable record of
all options related to (remote) execution of processes. -/
structure ExecutionOptions where
  remote_execution : Bool
  remote_store_server : List String
  remote_store_thread_count : Int
  remote_execution_server : Option String
  remote_store_chunk_bytes : Int
  remote_store_chunk_upload_timeout_seconds : Int
  remote_store_rpc_retries : Int
  remote_store_connection_limit : Int
  process_execution_local_parallelism : Nat
  process_execution_remote_parallelism : Int
  process_execution_cleanup_local_dirs : Bool
  process_execution_speculation_delay : Int
  process_execution_speculation_strategy : String
  process_execution_use_local_cache : Bool
  remote_execution_process_cache_namespace : Option String
  remote_instance_name : Option String
  remote_ca_certs_path : Option String
  remote_oauth_bearer_token_path : Option String
  remote_execution_extra_platform_properties : List String
  remote_execution_headers : List (String × String)
  remote_execution_overall_deadline_secs : Int
  process_execution_local_enable_nailgun : Bool
deriving DecidableEq, Repr

/-- `ExecutionOptions.from_bootstrap_options`: field-by-field copy of the
like-named attributes of the bootstrap options. -/
def ExecutionOptions.from_bootstrap_options
    (bootstrap_options : BootstrapOptionValues) : ExecutionOptions :=
  { remote_execution := bootstrap_options.remote_execution
    remote_store_server := bootstrap_options.remote_store_server
    remote_execution_server := bootstrap_options.remote_execution_server
    remote_store_thread_count := bootstrap_options.remote_store_thread_count
    remote_store_chunk_bytes := bootstrap_options.remote_store_chunk_bytes
    remote_store_chunk_upload_timeout_seconds :=
      bootstrap_options.remote_store_chunk_upload_timeout_seconds
    remote_store_rpc_retries := bootstrap_options.remote_store_rpc_retries
    remote_store_connection_limit := bootstrap_options.remote_store_connection_limit
    process_execution_local_parallelism :=
      bootstrap_options.process_execution_local_parallelism
    process_execution_remote_parallelism :=
      bootstrap_options.process_execution_remote_parallelism
    process_execution_cleanup_local_dirs :=
      bootstrap_options.process_execution_cleanup_local_dirs
    process_execution_speculation_delay :=
      bootstrap_options.process_execution_speculation_delay
    process_execution_speculation_strategy :=
      bootstrap_options.process_execution_speculation_strategy
    process_execution_use_local_cache :=
      bootstrap_options.process_execution_use_local_cache
    remote_execution_process_cache_namespace :=
      bootstrap_options.remote_execution_process_cache_namespace
    remote_instance_name := bootstrap_options.remote_instance_name
    remote_ca_certs_path := bootstrap_options.remote_ca_certs_path
    remote_oauth_bearer_token_path :=
      bootstrap_options.remote_oauth_bearer_token_path
    remote_execution_extra_platform_properties :=
      bootstrap_options.remote_execution_extra_platform_properties
    remote_execution_headers := bootstrap_options.remote_execution_headers
    remote_execution_overall_deadline_secs :=
      bootstrap_options.remote_execution_overall_deadline_secs
    process_execution_local_enable_nailgun :=
      bootstrap_options.process_execution_local_enable_nailgun }

/-- `DEFAULT_EXECUTION_OPTIONS`, parameterized by the host-dependent
`multiprocessing.cpu_count()`. -/
def DEFAULT_EXECUTION_OPTIONS (cpu_count : Nat) : ExecutionOptions :=
  { remote_execution := false
    remote_store_server := []
    remote_store_thread_count := 1
    remote_execution_server := none
    remote_store_chunk_bytes := 1024 * 1024
    remote_store_chunk_upload_timeout_seconds := 60
    remote_store_rpc_retries := 2
    remote_store_connection_limit := 5
    process_execution_local_parallelism := cpu_count
    process_execution_remote_parallelism := 128
    process_execution_cleanup_local_dirs := true
    process_execution_speculation_delay := 1
    process_execution_speculation_strategy := "none"
    process_execution_use_local_cache := true
    remote_execution_process_cache_namespace := none
    remote_instance_name := none
    remote_ca_certs_path := none
    remote_oauth_bearer_token_path := none
    remote_execution_extra_platform_properties := []
    remote_execution_headers := []
    remote_execution_overall_deadline_secs := 60 * 60
    process_execution_local_enable_nailgun := false }

/-- Python truthiness of a string option defaulting to `None`: false exactly
on `None` and the empty string. -/
def strTruthy : Option String → Bool
  | none => false
  | some s => !s.isEmpty

/-- Message of the error raised when `--remote-execution` is set without
`--remote-execution-server` (adjacent string literals concatenated). -/
def remoteExecutionRequiresServerMessage : String :=
  "The `--remote-execution` option requires also setting " ++
    "`--remote-execution-server` to work properly."

/-- Message of the error raised when `--remote-execution-server` is set
without `--remote-store-server`. -/
def remoteExecutionServerRequiresStoreMessage : String :=
  "The `--remote-execution-server` option requires also setting " ++
    "`--remote-store-server`. Often these have the same value."

/-- `GlobalOptions.validate_instance`: raises `OptionsError` when
`opts.remote_execution and not opts.remote_execution_server`, else when
`opts.remote_execution_server and not opts.remote_store_server` (the first
raise aborts, so the second check runs only when the first passes). -/
def validate_instance (opts : BootstrapOptionValues) : Except OptionsError Unit :=
  if opts.remote_execution && !strTruthy opts.remote_execution_server then
    .error ⟨remoteExecutionRequiresServerMessage⟩
  else if strTruthy opts.remote_execution_server && opts.remote_store_server.isEmpty then
    .error ⟨remoteExecutionServerRequiresStoreMessage⟩
  else .ok ()

/-- Registration data of a `choices=[...]` option: long name, choice list,
registered default, and help text. -/
structure ChoiceOptionRegistration where
  name : String
  choices : List String
  default : String
  helpText : String
deriving DecidableEq, Repr

/-- The help text of the speculation-strategy option, verbatim from the
source (adjacent string literals concatenated). -/
def processExecutionSpeculationStrategyHelp : String :=
  "Speculate a second request for an underlying process if the first one does not complete within " ++
    "`--process-execution-speculation-delay` seconds.\n" ++
    "`local_first` (default): Try to run the process locally first, " ++
    "and fall back to remote execution if available.\n" ++
    "`remote_first`: Run the process on the remote execution backend if available, " ++
    "and fall back to the local host if remote calls take longer than the speculation timeout.\n" ++
    "`none`: Do not speculate about long running processes."

/-- The `register("--process-execution-speculation-strategy", ...)` call in
`GlobalOptions.register_bootstrap_options`, with its choices, its default
(the source passes `DEFAULT_EXECUTION_OPTIONS.process_execution_speculation_strategy`)
and its help text. -/
def processExecutionSpeculationStrategyRegistration
    (cpu_count : Nat) : ChoiceOptionRegistration :=
  { name := "--process-execution-speculation-strategy"
    choices := ["remote_first", "local_first", "none"]
    default :=
      (DEFAULT_EXECUTION_OPTIONS cpu_count).process_execution_speculation_strategy
    helpText := processExecutionSpeculationStrategyHelp }

/-- The registered defaults of the bootstrap options that feed
`ExecutionOptions`, as declared in `register_bootstrap_options`: options
whose `default=` names a `DEFAULT_EXECUTION_OPTIONS` field use that field,
options with a literal default use that literal, and options registered
without a default hold `None`. -/
def registeredBootstrapDefaults (cpu_count : Nat) : BootstrapOptionValues :=
  { remote_execution := (DEFAULT_EXECUTION_OPTIONS cpu_count).remote_execution
    remote_store_server := []
    remote_store_thread_count :=
      (DEFAULT_EXECUTION_OPTIONS cpu_count).remote_store_thread_count
    remote_execution_server := none
    remote_store_chunk_bytes :=
      (DEFAULT_EXECUTION_OPTIONS cpu_count).remote_store_chunk_bytes
    remote_store_chunk_upload_timeout_seconds :=
      (DEFAULT_EXECUTION_OPTIONS cpu_count).remote_store_chunk_upload_timeout_seconds
    remote_store_rpc_retries :=
      (DEFAULT_EXECUTION_OPTIONS cpu_count).remote_store_rpc_retries
    remote_store_connection_limit :=
      (DEFAULT_EXECUTION_OPTIONS cpu_count).remote_store_connection_limit
    process_execution_local_parallelism :=
      (DEFAULT_EXECUTION_OPTIONS cpu_count).process_execution_local_parallelism
    process_execution_remote_parallelism :=
      (DEFAULT_EXECUTION_OPTIONS cpu_count).process_execution_remote_parallelism
    process_execution_cleanup_local_dirs := true
    process_execution_speculation_delay :=
      (DEFAULT_EXECUTION_OPTIONS cpu_count).process_execution_speculation_delay
    process_execution_speculation_strategy :=
      (DEFAULT_EXECUTION_OPTIONS cpu_count).process_execution_speculation_strategy
    process_execution_use_local_cache := true
    remote_execution_process_cache_namespace := none
    remote_instance_name := none
    remote_ca_certs_path := none
    remote_oauth_bearer_token_path := none
    remote_execution_extra_platform_properties := []
    remote_execution_headers := []
    remote_execution_overall_deadline_secs :=
      (DEFAULT_EXECUTION_OPTIONS cpu_count).remote_execution_overall_deadline_secs
    process_execution_local_enable_nailgun :=
      (DEFAULT_EXECUTION_OPTIONS cpu_count).process_execution_local_enable_nailgun }

/-- Whether `pat` occurs as a contiguous subsequence of a character list. -/
def containsSeq (pat : List Char) : List Char → Bool
  | [] => pat.isEmpty
  | c :: rest => pat.isPrefixOf (c :: rest) || containsSeq pat rest

/-- Whether `flag` occurs as a substring of `msg` (an error message "names"
a flag), computed on the underlying character lists. -/
def mentionsFlag (msg flag : String) : Bool :=
  containsSeq flag.toList msg.toList

/-- A bootstrap value source holding the registered defaults except for the
three remote-coupling options, which are set explicitly; used to build the
validator scenarios of the spec. -/
def remoteOptionsWith (re : Bool) (srv : Option String) (store : List String) :
    BootstrapOptionValues :=
  { registeredBootstrapDefaults 1 with
      remote_execution := re
      remote_execution_server := srv
      remote_store_server := store }

/-- Rule 1 of the validator, as the spec states it: remote execution is
enabled but no remote-execution server address is set. -/
def ruleOneViolated (opts : BootstrapOptionValues) : Prop :=
  opts.remote_execution = true ∧ strTruthy opts.remote_execution_server = false

/-- Rule 2 of the validator, as the spec states it: a remote-execution
server address is set but no remote store server address is set. -/
def ruleTwoViolated (opts : BootstrapOptionValues) : Prop :=
  strTruthy opts.remote_execution_server = true ∧ opts.remote_store_server = []

instance (opts : BootstrapOptionValues) : Decidable (ruleOneViolated opts) := by
  unfold ruleOneViolated; infer_instance

instance (opts : BootstrapOptionValues) : Decidable (ruleTwoViolated opts) := by
  unfold ruleTwoViolated; infer_instance

/-- C4: `to_glob_match_error_behavior` maps `warn` to
`GlobMatchErrorBehavior.warn` and `error` to `GlobMatchErrorBehavior.error`
on both domain enums, raising nothing. -/
theorem to_glob_conversion_maps_warn_and_error :
    FilesNotFoundBehavior.warn.to_glob_match_error_behavior =
        Except.ok GlobMatchErrorBehavior.warn
    ∧ FilesNotFoundBehavior.error.to_glob_match_error_behavior =
        Except.ok GlobMatchErrorBehavior.error
    ∧ OwnersNotFoundBehavior.warn.to_glob_match_error_behavior =
        Except.ok GlobMatchErrorBehavior.warn
    ∧ OwnersNotFoundBehavior.error.to_glob_match_error_behavior =
        Except.ok GlobMatchErrorBehavior.error :=
  ⟨rfl, rfl, rfl, rfl⟩

/-- C10: `OwnersNotFoundBehavior` has a member `ignore`, its conversion maps
`ignore` to `GlobMatchErrorBehavior.ignore`, and the conversion is total and
value-preserving on all three members. -/
theorem owners_conversion_total_and_value_preserving :
    OwnersNotFoundBehavior.ignore ∈ OwnersNotFoundBehavior.members
    ∧ OwnersNotFoundBehavior.ignore.to_glob_match_error_behavior =
        Except.ok GlobMatchErrorBehavior.ignore
    ∧ ∀ b : OwnersNotFoundBehavior, ∃ g : GlobMatchErrorBehavior,
        b.to_glob_match_error_behavior = Except.ok g ∧ g.value = b.value := by
  refine ⟨by simp [OwnersNotFoundBehavior.members], rfl, ?_⟩
  intro b
  cases b
  · exact ⟨.ignore, rfl, rfl⟩
  · exact ⟨.warn, rfl, rfl⟩
  · exact ⟨.error, rfl, rfl⟩

/-- C5 counterexample: the member set of `OwnersNotFoundBehavior` is not
`{warn, error}` — it contains `ignore`. -/
theorem owners_member_set_contains_ignore :
    OwnersNotFoundBehavior.members.contains OwnersNotFoundBehavior.ignore = true
    ∧ ([OwnersNotFoundBehavior.warn,
        OwnersNotFoundBehavior.error].contains OwnersNotFoundBehavior.ignore) = false := by
  decide

/-- C5 (amended): `FilesNotFoundBehavior` omits `ignore` — its member set is
exactly `{warn, error}` and its conversion only yields `warn` or `error` —
while `OwnersNotFoundBehavior` has members exactly `{ignore, warn, error}`
and its conversion maps `ignore` to `GlobMatchErrorBehavior.ignore`. -/
theorem behavior_enum_member_sets :
    (∀ b : FilesNotFoundBehavior,
      b = FilesNotFoundBehavior.warn ∨ b = FilesNotFoundBehavior.error)
    ∧ (∀ b : OwnersNotFoundBehavior,
      b = OwnersNotFoundBehavior.ignore ∨ b = OwnersNotFoundBehavior.warn ∨
        b = OwnersNotFoundBehavior.error)
    ∧ (∀ b : FilesNotFoundBehavior,
      b.to_glob_match_error_behavior = Except.ok GlobMatchErrorBehavior.warn ∨
        b.to_glob_match_error_behavior = Except.ok GlobMatchErrorBehavior.error)
    ∧ OwnersNotFoundBehavior.ignore.to_glob_match_error_behavior =
        Except.ok GlobMatchErrorBehavior.ignore := by
  refine ⟨?_, ?_, ?_, rfl⟩
  · intro b; cases b
    · exact Or.inl rfl
    · exact Or.inr rfl
  · intro b; cases b
    · exact Or.inl rfl
    · exact Or.inr (Or.inl rfl)
    · exact Or.inr (Or.inr rfl)
  · intro b; cases b
    · exact Or.inl rfl
    · exact Or.inr rfl

/-- C3: for each behavior enum, constructing a member from a string succeeds
exactly when the string is in that enum's variant set, and fails with an
`InvalidEnumValue` carrying the offending string for every other string. -/
theorem enum_construction_from_string (s : String) :
    ((∃ x, GlobMatchErrorBehavior.ofString s = Except.ok x) ↔
        s ∈ ["ignore", "warn", "error"])
    ∧ (s ∉ ["ignore", "warn", "error"] →
        GlobMatchErrorBehavior.ofString s =
          Except.error ⟨s, ["ignore", "warn", "error"]⟩)
    ∧ ((∃ x, FilesNotFoundBehavior.ofString s = Except.ok x) ↔
        s ∈ ["warn", "error"])
    ∧ (s ∉ ["warn", "error"] →
        FilesNotFoundBehavior.ofString s = Except.error ⟨s, ["warn", "error"]⟩)
    ∧ ((∃ x, OwnersNotFoundBehavior.ofString s = Except.ok x) ↔
        s ∈ ["ignore", "warn", "error"])
    ∧ (s ∉ ["ignore", "warn", "error"] →
        OwnersNotFoundBehavior.ofString s =
          Except.error ⟨s, ["ignore", "warn", "error"]⟩) := by
  by_cases h1 : s = "ignore" <;> by_cases h2 : s = "warn" <;> by_cases h3 : s = "error" <;>
    simp_all [GlobMatchErrorBehavior.ofString, FilesNotFoundBehavior.ofString,
      OwnersNotFoundBehavior.ofString]

/-- C3 witness: the string `"bogus"` is outside every variant set and
construction fails with the `InvalidEnumValue` condition. -/
theorem enum_construction_from_string_witness :
    GlobMatchErrorBehavior.ofString "bogus" =
      Except.error ⟨"bogus", ["ignore", "warn", "error"]⟩ :=
  (enum_construction_from_string "bogus").2.1 (by decide)

/-- C6: the canonical default instance has exactly the stated field values,
and its local parallelism is the host processor count it was built from. -/
theorem default_execution_options_field_values (cpu_count : Nat) :
    (DEFAULT_EXECUTION_OPTIONS cpu_count).process_execution_remote_parallelism = 128
    ∧ (DEFAULT_EXECUTION_OPTIONS cpu_count).remote_store_chunk_bytes = 1048576
    ∧ (DEFAULT_EXECUTION_OPTIONS cpu_count).remote_execution_overall_deadline_secs = 3600
    ∧ (DEFAULT_EXECUTION_OPTIONS cpu_count).remote_store_thread_count = 1
    ∧ (DEFAULT_EXECUTION_OPTIONS cpu_count).remote_store_connection_limit = 5
    ∧ (DEFAULT_EXECUTION_OPTIONS cpu_count).remote_store_rpc_retries = 2
    ∧ (DEFAULT_EXECUTION_OPTIONS cpu_count).process_execution_speculation_delay = 1
    ∧ (DEFAULT_EXECUTION_OPTIONS cpu_count).process_execution_speculation_strategy = "none"
    ∧ (DEFAULT_EXECUTION_OPTIONS cpu_count).process_execution_use_local_cache = true
    ∧ (DEFAULT_EXECUTION_OPTIONS cpu_count).process_execution_cleanup_local_dirs = true
    ∧ (DEFAULT_EXECUTION_OPTIONS cpu_count).process_execution_local_enable_nailgun = false
    ∧ (DEFAULT_EXECUTION_OPTIONS cpu_count).process_execution_local_parallelism = cpu_count := by
  refine ⟨rfl, ?_, ?_, rfl, rfl, rfl, rfl, rfl, rfl, rfl, rfl, rfl⟩ <;>
    norm_num [DEFAULT_EXECUTION_OPTIONS]

/-- C8: `from_bootstrap_options` is a pure field-by-field copy — every one
of the 22 fields of the returned record equals the like-named attribute of
the bootstrap value source — and, being a function, it is total and yields
equal records when projected twice from the same input. -/
theorem from_bootstrap_options_copies_fields (b : BootstrapOptionValues) :
    (ExecutionOptions.from_bootstrap_options b).remote_execution = b.remote_execution
    ∧ (ExecutionOptions.from_bootstrap_options b).remote_store_server = b.remote_store_server
    ∧ (ExecutionOptions.from_bootstrap_options b).remote_store_thread_count =
        b.remote_store_thread_count
    ∧ (ExecutionOptions.from_bootstrap_options b).remote_execution_server =
        b.remote_execution_server
    ∧ (ExecutionOptions.from_bootstrap_options b).remote_store_chunk_bytes =
        b.remote_store_chunk_bytes
    ∧ (ExecutionOptions.from_bootstrap_options b).remote_store_chunk_upload_timeout_seconds =
        b.remote_store_chunk_upload_timeout_seconds
    ∧ (ExecutionOptions.from_bootstrap_options b).remote_store_rpc_retries =
        b.remote_store_rpc_retries
    ∧ (ExecutionOptions.from_bootstrap_options b).remote_store_connection_limit =
        b.remote_store_connection_limit
    ∧ (ExecutionOptions.from_bootstrap_options b).process_execution_local_parallelism =
        b.process_execution_local_parallelism
    ∧ (ExecutionOptions.from_bootstrap_options b).process_execution_remote_parallelism =
        b.process_execution_remote_parallelism
    ∧ (ExecutionOptions.from_bootstrap_options b).process_execution_cleanup_local_dirs =
        b.process_execution_cleanup_local_dirs
    ∧ (ExecutionOptions.from_bootstrap_options b).process_execution_speculation_delay =
        b.process_execution_speculation_delay
    ∧ (ExecutionOptions.from_bootstrap_options b).process_execution_speculation_strategy =
        b.process_execution_speculation_strategy
    ∧ (ExecutionOptions.from_bootstrap_options b).process_execution_use_local_cache =
        b.process_execution_use_local_cache
    ∧ (ExecutionOptions.from_bootstrap_options b).remote_execution_process_cache_namespace =
        b.remote_execution_process_cache_namespace
    ∧ (ExecutionOptions.from_bootstrap_options b).remote_instance_name = b.remote_instance_name
    ∧ (ExecutionOptions.from_bootstrap_options b).remote_ca_certs_path = b.remote_ca_certs_path
    ∧ (ExecutionOptions.from_bootstrap_options b).remote_oauth_bearer_token_path =
        b.remote_oauth_bearer_token_path
    ∧ (ExecutionOptions.from_bootstrap_options b).remote_execution_extra_platform_properties =
        b.remote_execution_extra_platform_properties
    ∧ (ExecutionOptions.from_bootstrap_options b).remote_execution_headers =
        b.remote_execution_headers
    ∧ (ExecutionOptions.from_bootstrap_options b).remote_execution_overall_deadline_secs =
        b.remote_execution_overall_deadline_secs
    ∧ (ExecutionOptions.from_bootstrap_options b).process_execution_local_enable_nailgun =
        b.process_execution_local_enable_nailgun
    ∧ ExecutionOptions.from_bootstrap_options b = ExecutionOptions.from_bootstrap_options b :=
  ⟨rfl, rfl, rfl, rfl, rfl, rfl, rfl, rfl, rfl, rfl, rfl, rfl, rfl, rfl, rfl, rfl, rfl, rfl,
    rfl, rfl, rfl, rfl, rfl⟩

/-- C9: projecting the registered bootstrap defaults through
`from_bootstrap_options` yields exactly `DEFAULT_EXECUTION_OPTIONS` — the
canonical constant is structurally consistent with the registered
defaults. -/
theorem default_execution_options_consistent_with_registered_defaults (cpu_count : Nat) :
    ExecutionOptions.from_bootstrap_options (registeredBootstrapDefaults cpu_count) =
      DEFAULT_EXECUTION_OPTIONS cpu_count :=
  rfl

/-- C1: `validate_instance` fails exactly when rule 1 (remote execution
enabled but no remote-execution server) or rule 2 (remote-execution server
set but no remote store server) is violated; the rule-1 error names
`--remote-execution-server`, the rule-2 error names `--remote-store-server`,
and every other combination of option values is accepted. -/
theorem validate_instance_error_conditions (opts : BootstrapOptionValues) :
    (validate_instance opts = Except.ok () ↔
        ¬(ruleOneViolated opts ∨ ruleTwoViolated opts))
    ∧ (ruleOneViolated opts →
        validate_instance opts = Except.error ⟨remoteExecutionRequiresServerMessage⟩)
    ∧ (¬ruleOneViolated opts → ruleTwoViolated opts →
        validate_instance opts = Except.error ⟨remoteExecutionServerRequiresStoreMessage⟩)
    ∧ mentionsFlag remoteExecutionRequiresServerMessage "--remote-execution-server" = true
    ∧ mentionsFlag remoteExecutionServerRequiresStoreMessage "--remote-store-server" = true := by
  have hm1 : mentionsFlag remoteExecutionRequiresServerMessage
      "--remote-execution-server" = true := by decide
  have hm2 : mentionsFlag remoteExecutionServerRequiresStoreMessage
      "--remote-store-server" = true := by decide
  refine ⟨?_, ?_, ?_, hm1, hm2⟩ <;>
    cases hre : opts.remote_execution <;>
      cases hsrv : strTruthy opts.remote_execution_server <;>
        cases hls : opts.remote_store_server <;>
          simp [validate_instance, ruleOneViolated, ruleTwoViolated, hre, hsrv, hls]

/-- C1 witness: scenario B — a remote-execution server is set while the
remote store server list is empty — is rejected with the error naming
`--remote-store-server`. -/
theorem validate_instance_error_conditions_witness :
    validate_instance (remoteOptionsWith false (some "host:1234") []) =
      Except.error ⟨remoteExecutionServerRequiresStoreMessage⟩ :=
  (validate_instance_error_conditions
    (remoteOptionsWith false (some "host:1234") [])).2.2.1 (by decide) (by decide)

/-- C2: whenever rule 1 is violated, `validate_instance` raises the single
rule-1 error — regardless of `remote_store_server` — whose message names
`--remote-execution-server` and never `--remote-store-server`; rule 2 is
never reached. -/
theorem validate_instance_rule_one_first (opts : BootstrapOptionValues)
    (h : ruleOneViolated opts) :
    validate_instance opts = Except.error ⟨remoteExecutionRequiresServerMessage⟩
    ∧ mentionsFlag remoteExecutionRequiresServerMessage "--remote-execution-server" = true
    ∧ mentionsFlag remoteExecutionRequiresServerMessage "--remote-store-server" = false := by
  obtain ⟨h1, h2⟩ := h
  refine ⟨?_, by decide, by decide⟩
  simp [validate_instance, h1, h2]

/-- C2 witness: scenario A — `remote_execution=true` with an empty
remote-execution server — is rejected with exactly the rule-1 error. -/
theorem validate_instance_rule_one_first_witness :
    validate_instance (remoteOptionsWith true (some "") []) =
      Except.error ⟨remoteExecutionRequiresServerMessage⟩
    ∧ mentionsFlag remoteExecutionRequiresServerMessage "--remote-execution-server" = true
    ∧ mentionsFlag remoteExecutionRequiresServerMessage "--remote-store-server" = false :=
  validate_instance_rule_one_first (remoteOptionsWith true (some "") []) (by decide)

/-- C7 (code evaluation): the speculation-strategy option is registered with
choices `{remote_first, local_first, none}`, but its registered default is
`"none"`, not `"local_first"`, even though its own help text documents
`local_first` as the default. -/
theorem speculation_strategy_registered_default_is_none (cpu_count : Nat) :
    (processExecutionSpeculationStrategyRegistration cpu_count).choices =
        ["remote_first", "local_first", "none"]
    ∧ (processExecutionSpeculationStrategyRegistration cpu_count).default = "none"
    ∧ (("none" : String) == "local_first") = false
    ∧ (processExecutionSpeculationStrategyRegistration cpu_count).helpText =
        processExecutionSpeculationStrategyHelp
    ∧ mentionsFlag processExecutionSpeculationStrategyHelp
        "`local_first` (default)" = true := by
  refine ⟨rfl, rfl, ?_, rfl, ?_⟩ <;> decide
